import Mathlib

/-!
Shallow embedding of the College Departments Portal server
(`2_server.py`, seeded by `1_setup_database.py`).

Python strings are modelled as Lean `String`s whose character list (`.data`)
carries the Python-level character operations (`strip`, `len`, slicing).
Timestamps are modelled as natural numbers (SQLite `CURRENT_TIMESTAMP`
strings compare chronologically, so a totally ordered `Nat` clock is
faithful).  The SQLite database is modelled as an in-memory `Store`;
the filesystem as the list of file names written.
-/

namespace CollegePortal

/-! ### Python string primitives -/

/-- Characters removed by Python's `str.strip()` (whitespace). -/
def stripChars (l : List Char) : List Char :=
  ((l.dropWhile Char.isWhitespace).reverse.dropWhile Char.isWhitespace).reverse

/-- Python `s.strip()`: remove leading and trailing whitespace. -/
def pyStrip (s : String) : String := String.mk (stripChars s.data)

/-- SQLite `SUBSTR(s, 1, n)` / Python slicing: the first `n` characters. -/
def pyTake (n : Nat) (s : String) : String := String.mk (s.data.take n)

/-- Models `hashlib.sha256(password.encode()).hexdigest()` (an external
library call): a deterministic one-way hash, idealised as an injective
tagging function (SHA-256 collision-freedom taken as injectivity). -/
def sha256Hex (s : String) : String := String.mk ("sha256$".data ++ s.data)

/-! ### Data model (`1_setup_database.py` tables) -/

/-- A row of the `departments` table. -/
structure Department where
  dept_id : Nat
  dept_name : String
  email : String
  password_hash : String
deriving DecidableEq

/-- A row of the `data_entries` table. -/
structure DataEntry where
  entry_id : Nat
  dept_id : Nat
  entry_type : String
  data_content : String
  created_at : Nat
deriving DecidableEq

/-- The SQLite database: departments (read-only to the server) and
data entries, with the `AUTOINCREMENT` counter for `entry_id`. -/
structure Store where
  departments : List Department
  entries : List DataEntry
  nextEntryId : Nat
deriving DecidableEq

/-- The in-memory counters `self.stats` of `EnhancedCollegeServer.__init__`. -/
structure Stats where
  connections : Nat
  data_entries : Nat
  exports : Nat
deriving DecidableEq

/-- Process-wide server state: the database, the stats counters and the
names of the files written so far (the filesystem effect of exports). -/
structure ServerState where
  store : Store
  stats : Stats
  files : List String
deriving DecidableEq

/-- Per-connection session state of `handle_client`: the `authenticated`
flag and the optional `dept_info` binding `(dept_id, dept_name)`. -/
structure Session where
  authenticated : Bool
  dept_info : Option (Nat × String)
deriving DecidableEq

/-- One element of a `get_recent` response (`get_recent_entries` row). -/
structure RecentEntry where
  dept_name : String
  entry_type : String
  content_preview : String
  created_at : Nat
deriving DecidableEq

/-- A JSON response object; absent keys are `none`.  The `dept_info`
dictionary is modelled by its `(dept_id, dept_name)` payload. -/
structure Response where
  status : String
  message : Option String := none
  dept_info : Option (Nat × String) := none
  entry_id : Option Nat := none
  dept_name : Option String := none
  data : Option (List RecentEntry) := none
  filename : Option String := none
  stats : Option Stats := none
deriving DecidableEq

/-- Outcome of one iteration of the `handle_client` loop: either a JSON
reply is sent, or the loop breaks (the `disconnect` action). -/
inductive StepOutcome where
  | reply (r : Response)
  | disconnect
deriving DecidableEq

/-- Status field of a reply, if any. -/
def StepOutcome.statusOf : StepOutcome → Option String
  | .reply r => some r.status
  | .disconnect => none

/-- The `entry_id` field of a reply, if any. -/
def StepOutcome.entryIdOf : StepOutcome → Option Nat
  | .reply r => r.entry_id
  | .disconnect => none

/-- Whether the outcome is an error reply. -/
def StepOutcome.isErrorReply : StepOutcome → Bool
  | .reply r => r.status == "error"
  | .disconnect => false

/-- A decoded JSON request: a flat string-valued object, as sent by the
client GUI.  `dict.get` is association-list lookup. -/
abbrev Message := List (String × String)

/-- Python `message.get(key, default)`. -/
def Message.getD (m : Message) (k d : String) : String := (m.lookup k).getD d

/-- An error reply carrying a message. -/
def errReply (m : String) : Response := { status := "error", message := some m }

/-! ### Seeded departments (`add_sample_departments`) -/

/-- The sample `(dept_name, email, password)` triples inserted by
`1_setup_database.py`. -/
def seedCreds : List (String × String × String) :=
  [("Computer Science", "cs@college.edu", "cs_password123"),
   ("Mathematics", "math@college.edu", "math_password123"),
   ("Physics", "physics@college.edu", "physics_password123"),
   ("Chemistry", "chemistry@college.edu", "chem_password123"),
   ("Biology", "bio@college.edu", "bio_password123"),
   ("English", "english@college.edu", "eng_password123"),
   ("Engineering", "eng@college.edu", "eng_password123"),
   ("Business", "business@college.edu", "business_password123")]

/-- The seeded `departments` table: `AUTOINCREMENT` ids 1..8, passwords
stored hashed. -/
def seededDepartments : List Department :=
  (seedCreds.enumFrom 1).map (fun p =>
    { dept_id := p.1, dept_name := p.2.1, email := p.2.2.1,
      password_hash := sha256Hex p.2.2.2 })

/-- The freshly seeded database. -/
def initialStore : Store :=
  { departments := seededDepartments, entries := [], nextEntryId := 1 }

/-- Server state at process start: `{'connections': 0, 'data_entries': 0,
'exports': 0}`, no files written. -/
def initialServer : ServerState :=
  { store := initialStore, stats := ⟨0, 0, 0⟩, files := [] }

/-! ### Store queries -/

/-- The SQL join `data_entries JOIN departments ON de.dept_id = d.dept_id`:
each entry paired with its department row (entries with a dangling
`dept_id` are dropped by the inner join). -/
def joinRows (st : Store) : List (DataEntry × Department) :=
  st.entries.filterMap (fun e =>
    (st.departments.find? (fun d => d.dept_id == e.dept_id)).map (fun d => (e, d)))

/-- The `ORDER BY de.created_at DESC` relation on joined rows. -/
def entryGE (a b : DataEntry × Department) : Prop := b.1.created_at ≤ a.1.created_at

instance : DecidableRel entryGE := fun _ _ => Nat.decLe _ _

instance : IsTotal (DataEntry × Department) entryGE :=
  ⟨fun _ _ => Nat.le_total _ _⟩

instance : IsTrans (DataEntry × Department) entryGE :=
  ⟨fun _ _ _ h1 h2 => Nat.le_trans h2 h1⟩

/-- The descending `created_at` relation on response rows. -/
def recentGE (a b : RecentEntry) : Prop := b.created_at ≤ a.created_at

/-- `get_recent_entries(limit)` (lines 301-331): join, order by
`created_at` descending, `LIMIT ?`, preview `SUBSTR(data_content, 1, 100)`. -/
def get_recent_entries (st : Store) (limit : Nat) : List RecentEntry :=
  (((joinRows st).insertionSort entryGE).take limit).map (fun r =>
    { dept_name := r.2.dept_name, entry_type := r.1.entry_type,
      content_preview := pyTake 100 r.1.data_content,
      created_at := r.1.created_at })

/-- `SELECT COUNT(DISTINCT dept_id) FROM data_entries`. -/
def active_departments (st : Store) : Nat :=
  ((st.entries.map (fun e => e.dept_id)).dedup).length

/-- The `ORDER BY COUNT(*) DESC` relation for the category summary. -/
def countGE (a b : String × Nat) : Prop := b.2 ≤ a.2

instance : DecidableRel countGE := fun _ _ => Nat.decLe _ _

instance : IsTotal (String × Nat) countGE :=
  ⟨fun _ _ => Nat.le_total _ _⟩

instance : IsTrans (String × Nat) countGE :=
  ⟨fun _ _ _ h1 h2 => Nat.le_trans h2 h1⟩

/-- `SELECT entry_type, COUNT(*) FROM data_entries GROUP BY entry_type
ORDER BY COUNT(*) DESC` (lines 156-162). -/
def type_stats (st : Store) : List (String × Nat) :=
  let tl := st.entries.map (fun e => e.entry_type)
  (tl.dedup.map (fun t => (t, tl.count t))).insertionSort countGE

/-- The per-category percentage of line 185:
`(count / total_entries * 100) if total_entries > 0 else 0`. -/
def percentage (count total : Nat) : ℚ :=
  if 0 < total then (count : ℚ) / (total : ℚ) * 100 else 0

/-! ### Exports -/

/-- A SQLite connection handle; `conn.close()` flips the flag, and using a
cursor afterwards raises `ProgrammingError`. -/
structure Conn where
  isOpen : Bool

/-- `conn.close()`. -/
def Conn.close (_ : Conn) : Conn := ⟨false⟩

/-- `cursor.execute(...)` on this connection: raises on a closed
connection, otherwise yields the query result. -/
def Conn.execute {α : Type} (c : Conn) (rows : α) : Except String α :=
  if c.isOpen then .ok rows else .error "Cannot operate on a closed database"

/-- Result of an export call: the Python return value and the names of the
files the call wrote (including partially written files). -/
structure ExportOutcome where
  result : Option String
  filesWritten : List String
deriving DecidableEq

/-- The timestamp-named export file of line 125,
`college_data_export_{timestamp}.csv`. -/
def timestampName (now : Nat) : String :=
  "college_data_export_" ++ toString now ++ ".csv"

/-- `auto_export_enhanced_csv` (lines 121-229), translated step by step:
the four statistics queries run while the connection is open; line 164
closes the connection; the file is then opened and the metadata and
category-summary sections are written; line 190 runs the recent-activity
query on the now-closed connection, which raises, is caught at line 227,
and the function returns `None` with the file only partially written and
`shutil.copy2` to the latest file never reached. -/
def auto_export_enhanced_csv (st : Store) (now : Nat) : ExportOutcome :=
  let filename := timestampName now
  let latest_filename := "latest_college_data_export.csv"
  let conn : Conn := ⟨true⟩
  match conn.execute (((joinRows st).insertionSort entryGE)) with
  | .error _ => ⟨none, []⟩
  | .ok _data =>
  match conn.execute st.entries.length with
  | .error _ => ⟨none, []⟩
  | .ok total_entries =>
  match conn.execute (active_departments st) with
  | .error _ => ⟨none, []⟩
  | .ok _active =>
  match conn.execute (type_stats st) with
  | .error _ => ⟨none, []⟩
  | .ok tstats =>
  let conn := conn.close
  let _summaryRows := tstats.map (fun p => (p.1, p.2, percentage p.2 total_entries))
  match conn.execute (get_recent_entries st 10) with
  | .error _ => ⟨none, [filename]⟩
  | .ok _recent =>
    ⟨some filename, [filename, latest_filename]⟩

/-- `export_formatted_report` (lines 231-299) with its default argument:
writes the department activity summary and recent activity into the fixed
file `college_report.csv` (the connection is closed only after all
queries, so the call succeeds) and returns the filename. -/
def export_formatted_report (st : Store) : Option String × List String :=
  let filename := "college_report.csv"
  let _dept_stats := st.departments.map (fun d =>
    (d.dept_name, (st.entries.filter (fun e => e.dept_id == d.dept_id)).length))
  let _recent := get_recent_entries st 10
  (some filename, [filename])

/-! ### Authentication and data saving -/

/-- `authenticate_department` (lines 25-49): look up by exact email and
hashed-password equality; the generic failure message leaks nothing. -/
def authenticate_department (st : Store) (email password : String) :
    Except String (Nat × String) :=
  let password_hash := sha256Hex password
  match st.departments.find? (fun d =>
      d.email == email && d.password_hash == password_hash) with
  | some d => .ok (d.dept_id, d.dept_name)
  | none => .error "Invalid credentials"

/-- `save_department_data` (lines 51-119), parameterised by the export
routine it triggers (the call at line 107 sits in its own `try/except`,
so only the log depends on its outcome).  Validation order follows the
source: falsy `dept_id`, blank `entry_type`, blank `data_content`, the
10,000-character limit, then department existence; on success the entry
is inserted with the server clock, `stats['data_entries']` is bumped and
the export rewrites the CSV snapshot. -/
def save_department_data_with (exportFn : Store → Nat → ExportOutcome)
    (srv : ServerState) (dept_id : Nat) (entry_type data_content : String)
    (now : Nat) : ServerState × Except String (Nat × String) :=
  if dept_id = 0 then (srv, .error "Department ID is required")
  else if pyStrip entry_type = "" then (srv, .error "Entry type is required")
  else if pyStrip data_content = "" then (srv, .error "Data content is required")
  else if 10000 < data_content.length then
    (srv, .error "Content too long (max 10,000 characters)")
  else
    match srv.store.departments.find? (fun d => d.dept_id == dept_id) with
    | none => (srv, .error "Invalid department ID")
    | some dept =>
      let entry_id := srv.store.nextEntryId
      let store' : Store :=
        { srv.store with
          entries := srv.store.entries ++
            [{ entry_id := entry_id, dept_id := dept_id,
               entry_type := pyStrip entry_type,
               data_content := pyStrip data_content, created_at := now }],
          nextEntryId := entry_id + 1 }
      let stats' : Stats := { srv.stats with data_entries := srv.stats.data_entries + 1 }
      let outcome := exportFn store' now
      ({ store := store', stats := stats', files := srv.files ++ outcome.filesWritten },
       .ok (entry_id, dept.dept_name))

/-- `save_department_data` with the real auto-export of line 107. -/
def save_department_data (srv : ServerState) (dept_id : Nat)
    (entry_type data_content : String) (now : Nat) :
    ServerState × Except String (Nat × String) :=
  save_department_data_with auto_export_enhanced_csv srv dept_id entry_type data_content now

/-! ### The request dispatcher -/

/-- The `elif` dispatch of `handle_client` (lines 376-475) on one decoded
message.  `dept_info['dept_id']` is read off the session; a missing
`dept_info` (unreachable when `authenticated` is set by `login` only) is
modelled as id 0, which `save_department_data` rejects. -/
def handle_message (srv : ServerState) (sess : Session) (msg : Message)
    (now : Nat) : ServerState × Session × StepOutcome :=
  let action := msg.lookup "action"
  if action = some "login" ∧ sess.authenticated = false then
    let email := pyStrip (msg.getD "email" "")
    let password := pyStrip (msg.getD "password" "")
    if email = "" ∨ password = "" then
      (srv, sess, .reply (errReply "Email and password required"))
    else
      match authenticate_department srv.store email password with
      | .ok d =>
        (srv, { authenticated := true, dept_info := some d },
         .reply { status := "success",
                  message := some ("Welcome " ++ d.2 ++ "!"),
                  dept_info := some d })
      | .error m => (srv, sess, .reply (errReply m))
  else if action = some "submit_data" ∧ sess.authenticated = true then
    let entry_type := pyStrip (msg.getD "entry_type" "")
    let data_content := pyStrip (msg.getD "data_content" "")
    if entry_type = "" ∨ data_content = "" then
      (srv, sess, .reply (errReply "Both category and content are required"))
    else
      let dept_id := (sess.dept_info.map Prod.fst).getD 0
      let res := save_department_data srv dept_id entry_type data_content now
      match res.2 with
      | .ok ed =>
        (res.1, sess,
         .reply { status := "success",
                  message := some ("Data saved successfully! Entry ID: " ++
                    toString ed.1 ++ ". CSV export completed for data analysis."),
                  entry_id := some ed.1, dept_name := some ed.2 })
      | .error m => (res.1, sess, .reply (errReply m))
  else if action = some "get_recent" ∧ sess.authenticated = true then
    (srv, sess, .reply { status := "success",
                         data := some (get_recent_entries srv.store 10) })
  else if action = some "export_csv" ∧ sess.authenticated = true then
    let r := export_formatted_report srv.store
    match r.1 with
    | some filename =>
      ({ srv with files := srv.files ++ r.2 }, sess,
       .reply { status := "success",
                message := some ("Enhanced report exported to " ++ filename),
                filename := some filename })
    | none => (srv, sess, .reply (errReply "Export failed"))
  else if action = some "get_stats" ∧ sess.authenticated = true then
    (srv, sess, .reply { status := "success", stats := some srv.stats })
  else if action = some "disconnect" then
    (srv, sess, .disconnect)
  else
    (srv, sess, .reply (errReply "Invalid action or authentication required"))

/-! ### The protocol codec -/

/-- Skip JSON whitespace. -/
def skipWs (l : List Char) : List Char := l.dropWhile (fun c => c.isWhitespace)

/-- Scan the body of a JSON string literal up to the closing quote. -/
def parseStringBody : List Char → List Char → Option (String × List Char)
  | [], _ => none
  | c :: rest, acc =>
    if c = '"' then some (String.mk acc.reverse, rest)
    else parseStringBody rest (c :: acc)

/-- Parse one JSON string literal. -/
def parseJString (l : List Char) : Option (String × List Char) :=
  match l with
  | c :: rest => if c = '"' then parseStringBody rest [] else none
  | [] => none

/-- Parse comma-separated `"key": "value"` pairs (fuelled recursion). -/
def parsePairs : Nat → List Char → List (String × String) →
    Option (List (String × String) × List Char)
  | 0, _, _ => none
  | fuel + 1, s, acc =>
    match parseJString (skipWs s) with
    | none => none
    | some (key, rest) =>
      match skipWs rest with
      | c :: rest2 =>
        if c = ':' then
          match parseJString (skipWs rest2) with
          | none => none
          | some (val, rest3) =>
            match skipWs rest3 with
            | c2 :: rest4 =>
              if c2 = ',' then parsePairs fuel rest4 ((key, val) :: acc)
              else some (((key, val) :: acc).reverse, c2 :: rest4)
            | [] => some (((key, val) :: acc).reverse, [])
        else none
      | [] => none

/-- Models `json.loads(data)` for the protocol's flat string-valued JSON
objects (the only shape the client sends): succeeds exactly on one
complete object followed by nothing but whitespace, fails (`None`, the
`json.JSONDecodeError` path) on anything malformed or incomplete. -/
def parseRequest (data : String) : Option Message :=
  match skipWs data.data with
  | c :: rest =>
    if c = '\x7b' then
      match skipWs rest with
      | c2 :: rest2 =>
        if c2 = '\x7d' then
          if (skipWs rest2).isEmpty then some [] else none
        else
          match parsePairs (rest.length + 1) rest [] with
          | some (pairs, rest3) =>
            match skipWs rest3 with
            | c3 :: rest4 =>
              if c3 = '\x7d' then
                if (skipWs rest4).isEmpty then some pairs else none
              else none
            | [] => none
          | none => none
      | [] => none
    else none
  | [] => none

/-- One iteration of the `handle_client` read loop (lines 361-482) on the
bytes of a single `recv`: the chunk is decoded standalone — there is no
carry-over buffer — and a chunk that fails to parse is answered with the
`Invalid JSON format` error reply (the exception detail appended in the
source message is elided). -/
def handle_data (srv : ServerState) (sess : Session) (data : String)
    (now : Nat) : ServerState × Session × StepOutcome :=
  match parseRequest data with
  | none => (srv, sess, .reply (errReply "Invalid JSON format"))
  | some msg => handle_message srv sess msg now

/-- A new connection is accepted (line 354): `stats['connections'] += 1`. -/
def client_connect (srv : ServerState) : ServerState :=
  { srv with stats := { srv.stats with connections := srv.stats.connections + 1 } }

/-- Server states reachable from process start by accepting connections
and serving requests (any session, any raw bytes, any clock). -/
inductive Reachable : ServerState → Prop where
  | init : Reachable initialServer
  | connect {s : ServerState} : Reachable s → Reachable (client_connect s)
  | step {s : ServerState} (sess : Session) (data : String) (now : Nat) :
      Reachable s → Reachable (handle_data s sess data now).1

/-! ### Concrete inputs used as witnesses and counterexamples -/

/-- A login request message. -/
def loginMsg (e p : String) : Message :=
  [("action", "login"), ("email", e), ("password", p)]

/-- A 10,001-character content: 10,000 letters and a trailing space. -/
def longContent : String := String.mk (List.replicate 10000 'A' ++ [' '])

/-- An authenticated Computer Science session. -/
def sessionCS : Session := ⟨true, some (1, "Computer Science")⟩

/-- A submit request whose raw content exceeds the 10,000-character limit
only by trailing whitespace. -/
def msgLong : Message :=
  [("action", "submit_data"), ("entry_type", "Student Records"),
   ("data_content", longContent)]

/-- The seeded Computer Science department row. -/
def deptCS : Department :=
  ⟨1, "Computer Science", "cs@college.edu", sha256Hex "cs_password123"⟩

/-- A small populated database used to instantiate universal theorems. -/
def storeTwo : Store :=
  { departments := seededDepartments,
    entries := [⟨1, 1, "Student Records", "first entry body", 1⟩,
                ⟨2, 1, "Budget", "second entry body", 2⟩],
    nextEntryId := 3 }

/-- The first half of a JSON request split across two reads. -/
def chunk1 : String := "\x7b\"action\": \"get_st"

/-- The second half of that request. -/
def chunk2 : String := "ats\"\x7d"

end CollegePortal

namespace CollegePortal

/-! ## Helper lemmas -/

/-- No branch of `save_department_data` touches the exports counter. -/
lemma stats_save (f : Store → Nat → ExportOutcome) (srv : ServerState)
    (did : Nat) (et dc : String) (now : Nat) :
    (save_department_data_with f srv did et dc now).1.stats.exports =
      srv.stats.exports := by
  unfold save_department_data_with
  split_ifs <;> try rfl
  split <;> rfl

/-- No dispatch branch touches the exports counter. -/
lemma stats_handle_message (srv : ServerState) (sess : Session) (msg : Message)
    (now : Nat) :
    (handle_message srv sess msg now).1.stats.exports = srv.stats.exports := by
  unfold handle_message
  dsimp only
  split_ifs <;> try rfl
  all_goals try (split <;> try rfl)
  all_goals simp [save_department_data, stats_save]

/-- One read-loop iteration preserves the exports counter. -/
lemma stats_handle_data (srv : ServerState) (sess : Session) (data : String)
    (now : Nat) :
    (handle_data srv sess data now).1.stats.exports = srv.stats.exports := by
  unfold handle_data
  split
  · rfl
  · exact stats_handle_message ..

/-- The recent-entries query honours its SQL `LIMIT`. -/
lemma get_recent_length_le (st : Store) (limit : Nat) :
    (get_recent_entries st limit).length ≤ limit := by
  unfold get_recent_entries
  rw [List.length_map]
  exact List.length_take_le limit _

/-- The recent-entries query is sorted most-recent-first. -/
lemma get_recent_sorted (st : Store) (limit : Nat) :
    List.Sorted recentGE (get_recent_entries st limit) := by
  unfold get_recent_entries
  refine List.Pairwise.map _ (fun a b h => h) ?_
  exact ((List.sorted_insertionSort entryGE (joinRows st)).sublist
    (List.take_sublist limit _))

/-- Every row of the recent-entries result previews a stored entry. -/
lemma get_recent_mem (st : Store) (limit : Nat) :
    ∀ r ∈ get_recent_entries st limit, ∃ e, e ∈ st.entries ∧
      r.content_preview = pyTake 100 e.data_content ∧
      r.created_at = e.created_at ∧ r.entry_type = e.entry_type := by
  intro r hr
  unfold get_recent_entries at hr
  obtain ⟨x, hx, rfl⟩ := List.mem_map.mp hr
  have hx2 : x ∈ (joinRows st).insertionSort entryGE :=
    (List.take_sublist limit _).subset hx
  have hx3 : x ∈ joinRows st := (List.mem_insertionSort entryGE).mp hx2
  unfold joinRows at hx3
  obtain ⟨e, he, hfe⟩ := List.mem_filterMap.mp hx3
  obtain ⟨d, _, hxd⟩ := Option.map_eq_some'.mp hfe
  exact ⟨e, he, by simp [← hxd]⟩

/-- The `GROUP BY entry_type` counts add up to the number of entries. -/
lemma type_stats_counts_sum (st : Store) :
    ((type_stats st).map (fun p => p.2)).sum = st.entries.length := by
  unfold type_stats
  set tl := st.entries.map (fun e => e.entry_type) with htl
  set counts := tl.dedup.map (fun t => (t, tl.count t)) with hc
  have hperm : List.Perm (counts.insertionSort countGE) counts :=
    List.perm_insertionSort _ _
  rw [(hperm.map _).sum_eq, hc, List.map_map]
  have hcomp : ((fun p : String × Nat => p.2) ∘ fun t => (t, tl.count t)) =
      fun t => tl.count t := rfl
  have hded : tl.dedup.toFinset = tl.toFinset :=
    List.toFinset.ext_iff.mpr (fun x => List.mem_dedup)
  rw [hcomp, ← List.sum_toFinset _ tl.nodup_dedup, hded,
    List.sum_toFinset_count_eq_length, htl, List.length_map]

/-- Distributing a common division and factor out of a list sum. -/
lemma sum_map_rat (l : List (String × Nat)) (N : ℚ) :
    (l.map (fun p => (p.2 : ℚ) / N * 100)).sum =
      (((l.map (fun p => p.2)).sum : ℕ) : ℚ) / N * 100 := by
  induction l with
  | nil => simp
  | cons a l ih =>
    simp only [List.map_cons, List.sum_cons, ih]
    push_cast
    ring

/-- Dropping a predicate that fails on the repeated element is a no-op. -/
lemma dropWhile_replicate {p : Char → Bool} {a : Char} (h : p a = false) (n : Nat) :
    (List.replicate n a).dropWhile p = List.replicate n a := by
  cases n with
  | zero => rfl
  | succ n => simp [List.replicate_succ, List.dropWhile_cons, h]

/-- Stripping the padded content removes exactly the trailing space. -/
lemma stripChars_pad :
    stripChars (List.replicate 10000 'A' ++ [' ']) = List.replicate 10000 'A' := by
  have hA : Char.isWhitespace 'A' = false := by decide
  have hsp : Char.isWhitespace ' ' = true := by decide
  unfold stripChars
  rw [show (10000 : Nat) = 9999 + 1 from rfl, List.replicate_succ, List.cons_append,
    List.dropWhile_cons, if_neg (by simp [hA]), ← List.cons_append, ← List.replicate_succ]
  rw [List.reverse_append, List.reverse_replicate]
  simp only [List.reverse_cons, List.reverse_nil, List.nil_append, List.singleton_append,
    List.dropWhile_cons, hsp, if_pos, List.dropWhile_nil, dropWhile_replicate hA,
    List.reverse_replicate]

/-- Stripping all-letter content is a no-op. -/
lemma stripChars_replicate :
    stripChars (List.replicate 10000 'A') = List.replicate 10000 'A' := by
  have hA : Char.isWhitespace 'A' = false := by decide
  unfold stripChars
  rw [dropWhile_replicate hA, List.reverse_replicate, dropWhile_replicate hA,
    List.reverse_replicate]

/-- Python's strip of the padded content. -/
lemma pyStrip_longContent :
    pyStrip longContent = String.mk (List.replicate 10000 'A') := by
  show String.mk (stripChars (List.replicate 10000 'A' ++ [' '])) = _
  rw [stripChars_pad]

/-- Stripping the already-stripped content again changes nothing. -/
lemma pyStrip_stripped :
    pyStrip (String.mk (List.replicate 10000 'A')) =
      String.mk (List.replicate 10000 'A') := by
  show String.mk (stripChars (List.replicate 10000 'A')) = _
  rw [stripChars_replicate]

/-- The stripped content has exactly 10,000 characters. -/
lemma stripped_length : (String.mk (List.replicate 10000 'A')).length = 10000 := by
  show (List.replicate 10000 'A').length = 10000
  rw [List.length_replicate]

/-- The stripped content is not blank. -/
lemma stripped_ne_empty : String.mk (List.replicate 10000 'A') ≠ "" := by
  intro h
  have h2 : (String.mk (List.replicate 10000 'A')).length = 0 := by rw [h]; rfl
  rw [stripped_length] at h2
  exact absurd h2 (by decide)

/-- The raw padded content has 10,001 characters. -/
lemma longContent_length : longContent.length = 10001 := by
  show (List.replicate 10000 'A' ++ [' ']).length = 10001
  rw [List.length_append, List.length_replicate]
  rfl

/-- A well-formed submit request that passes every validation is saved and
acknowledged with the fresh entry id and the department name. -/
lemma handle_submit_ok (srv : ServerState) (sess : Session) (msg : Message)
    (now did : Nat) (dname : String) (dept : Department)
    (ha : msg.lookup "action" = some "submit_data")
    (hauth : sess.authenticated = true)
    (hdi : sess.dept_info = some (did, dname))
    (hdid : ¬ did = 0)
    (het : ¬ pyStrip (msg.getD "entry_type" "") = "")
    (hdc : ¬ pyStrip (msg.getD "data_content" "") = "")
    (het2 : ¬ pyStrip (pyStrip (msg.getD "entry_type" "")) = "")
    (hdc2 : ¬ pyStrip (pyStrip (msg.getD "data_content" "")) = "")
    (hlen : ¬ 10000 < (pyStrip (msg.getD "data_content" "")).length)
    (hfind : srv.store.departments.find? (fun d => d.dept_id == did) = some dept) :
    (handle_message srv sess msg now).2.2 =
      .reply { status := "success",
               message := some ("Data saved successfully! Entry ID: " ++
                 toString srv.store.nextEntryId ++
                 ". CSV export completed for data analysis."),
               entry_id := some srv.store.nextEntryId,
               dept_name := some dept.dept_name } ∧
    (handle_message srv sess msg now).1.store.entries =
      srv.store.entries ++
        [⟨srv.store.nextEntryId, did, pyStrip (pyStrip (msg.getD "entry_type" "")),
          pyStrip (pyStrip (msg.getD "data_content" "")), now⟩] := by
  simp [handle_message, ha, hauth, hdi, save_department_data, save_department_data_with,
    het, hdc, hdid, het2, hdc2, hlen, hfind]

/-- Looking a seeded department up by its own credentials finds it (the
seeded emails are pairwise distinct). -/
lemma seeded_find (d : Department) (hd : d ∈ seededDepartments) :
    seededDepartments.find? (fun x => x.email == d.email &&
      x.password_hash == d.password_hash) = some d := by
  revert d hd
  decide

/-- No seeded department has a blank email or the hash of a blank password. -/
lemma seeded_nonempty (d : Department) (hd : d ∈ seededDepartments) :
    d.email ≠ "" ∧ d.password_hash ≠ sha256Hex "" := by
  revert d hd
  decide

/-- Login whose trimmed credentials match a seeded department succeeds,
binds the department and sends the welcome reply. -/
lemma handle_login_ok (srv : ServerState) (sess : Session) (e p : String)
    (now : Nat) (d : Department)
    (hdep : srv.store.departments = seededDepartments)
    (hauth : sess.authenticated = false)
    (hd : d ∈ seededDepartments)
    (he : pyStrip e = d.email)
    (hp : sha256Hex (pyStrip p) = d.password_hash) :
    handle_message srv sess (loginMsg e p) now =
      (srv, ⟨true, some (d.dept_id, d.dept_name)⟩,
       .reply { status := "success",
                message := some ("Welcome " ++ d.dept_name ++ "!"),
                dept_info := some (d.dept_id, d.dept_name) }) := by
  have hne : d.email ≠ "" := (seeded_nonempty d hd).1
  have hpe : pyStrip p ≠ "" := by
    intro h0
    exact (seeded_nonempty d hd).2 (by rw [← hp, h0])
  have hfind := seeded_find d hd
  simp [handle_message, loginMsg, Message.getD, List.lookup, hauth,
    authenticate_department, hdep, he, hp, hfind, hne, hpe]

/-- Login whose trimmed credentials match no seeded department leaves both
the server and the session unchanged and replies with an error. -/
lemma handle_login_fail (srv : ServerState) (sess : Session) (e p : String)
    (now : Nat)
    (hdep : srv.store.departments = seededDepartments)
    (hauth : sess.authenticated = false)
    (hno : ∀ d ∈ seededDepartments,
      ¬(pyStrip e = d.email ∧ sha256Hex (pyStrip p) = d.password_hash)) :
    (handle_message srv sess (loginMsg e p) now).1 = srv ∧
    (handle_message srv sess (loginMsg e p) now).2.1 = sess ∧
    ((handle_message srv sess (loginMsg e p) now).2.2).isErrorReply = true := by
  by_cases hemail : pyStrip e = ""
  · simp [handle_message, loginMsg, Message.getD, List.lookup, hauth, hemail, errReply,
      StepOutcome.isErrorReply]
  · by_cases hpass : pyStrip p = ""
    · simp [handle_message, loginMsg, Message.getD, List.lookup, hauth, hemail, hpass,
        errReply, StepOutcome.isErrorReply]
    · have hfind : seededDepartments.find? (fun x => x.email == pyStrip e &&
          x.password_hash == sha256Hex (pyStrip p)) = none := by
        rw [List.find?_eq_none]
        intro x hx
        simp only [Bool.and_eq_true, beq_iff_eq, not_and]
        intro h1 h2
        exact hno x hx ⟨h1.symm, h2.symm⟩
      simp [handle_message, loginMsg, Message.getD, List.lookup, hauth, hemail, hpass,
        authenticate_department, hdep, hfind, errReply, StepOutcome.isErrorReply]

/-- Over-long content makes `save_department_data` return an error without
touching the server state. -/
lemma save_error_of_long (f : Store → Nat → ExportOutcome) (srv : ServerState)
    (did : Nat) (et dc : String) (now : Nat) (hlen : 10000 < dc.length) :
    (save_department_data_with f srv did et dc now).1 = srv ∧
    ∃ m, (save_department_data_with f srv did et dc now).2 = .error m := by
  unfold save_department_data_with
  split_ifs <;> exact ⟨rfl, _, rfl⟩

end CollegePortal

namespace CollegePortal

/-! ## Claim theorems -/

/-- C1 (amended): a login whose whitespace-trimmed email and trimmed
password match a seeded department moves the session from Unauthenticated
to Authenticated, binds that department's `dept_id`/`dept_name` and
replies success carrying the department's name; a login whose trimmed
credentials match no seeded department leaves the server state and the
session unchanged and replies with an error. -/
theorem login_trimmed_match_spec :
    (∀ (srv : ServerState) (sess : Session) (e p : String) (now : Nat)
      (d : Department),
      srv.store.departments = seededDepartments → sess.authenticated = false →
      d ∈ seededDepartments → pyStrip e = d.email →
      sha256Hex (pyStrip p) = d.password_hash →
      handle_message srv sess (loginMsg e p) now =
        (srv, ⟨true, some (d.dept_id, d.dept_name)⟩,
         .reply { status := "success",
                  message := some ("Welcome " ++ d.dept_name ++ "!"),
                  dept_info := some (d.dept_id, d.dept_name) })) ∧
    (∀ (srv : ServerState) (sess : Session) (e p : String) (now : Nat),
      srv.store.departments = seededDepartments → sess.authenticated = false →
      (∀ d ∈ seededDepartments,
        ¬(pyStrip e = d.email ∧ sha256Hex (pyStrip p) = d.password_hash)) →
      (handle_message srv sess (loginMsg e p) now).1 = srv ∧
      (handle_message srv sess (loginMsg e p) now).2.1 = sess ∧
      ((handle_message srv sess (loginMsg e p) now).2.2).isErrorReply = true) :=
  ⟨fun srv sess e p now d h1 h2 h3 h4 h5 =>
    handle_login_ok srv sess e p now d h1 h2 h3 h4 h5,
   fun srv sess e p now h1 h2 h3 => handle_login_fail srv sess e p now h1 h2 h3⟩

/-- C1 witness: the seeded Computer Science credentials log in and bind
the department; a wrong password is answered with an error. -/
theorem login_trimmed_match_spec_witness :
    handle_message initialServer ⟨false, none⟩
        (loginMsg "cs@college.edu" "cs_password123") 0 =
      (initialServer, ⟨true, some (1, "Computer Science")⟩,
       .reply { status := "success",
                message := some ("Welcome " ++ "Computer Science" ++ "!"),
                dept_info := some (1, "Computer Science") }) ∧
    ((handle_message initialServer ⟨false, none⟩
        (loginMsg "cs@college.edu" "wrongpass") 0).2.2).isErrorReply = true :=
  ⟨login_trimmed_match_spec.1 initialServer ⟨false, none⟩ "cs@college.edu"
      "cs_password123" 0 deptCS rfl rfl (by decide) (by decide) (by decide),
   (login_trimmed_match_spec.2 initialServer ⟨false, none⟩ "cs@college.edu"
      "wrongpass" 0 rfl rfl (by decide)).2.2⟩

/-- C1 counterexample: the pair `(cs@college.edu, "cs_password123 ")` with
a trailing space matches no seeded `(email, password)` pair exactly, yet
the handler strips the password before authenticating, so the login
succeeds and the session becomes Authenticated instead of receiving the
claimed generic error. -/
theorem login_exact_match_counterexample :
    (∀ c ∈ seedCreds, ¬("cs@college.edu" = c.2.1 ∧ "cs_password123 " = c.2.2)) ∧
    (handle_message initialServer ⟨false, none⟩
      (loginMsg "cs@college.edu" "cs_password123 ") 0).2.1.authenticated = true ∧
    ((handle_message initialServer ⟨false, none⟩
      (loginMsg "cs@college.edu" "cs_password123 ") 0).2.2).isErrorReply = false :=
  ⟨by decide, by decide, by decide⟩

/-- C2 (amended): a `submit_data` request whose `data_content` is blank
after trimming, whose `entry_type` is blank after trimming, or whose
trimmed `data_content` exceeds 10,000 characters is rejected with an
error reply and changes neither the server state (so no entry is
inserted) nor the session — whether the session is Authenticated or
Unauthenticated. -/
theorem submit_validation_spec (srv : ServerState) (sess : Session)
    (msg : Message) (now : Nat)
    (ha : msg.lookup "action" = some "submit_data")
    (h : pyStrip (msg.getD "entry_type" "") = "" ∨
         pyStrip (msg.getD "data_content" "") = "" ∨
         10000 < (pyStrip (msg.getD "data_content" "")).length) :
    (handle_message srv sess msg now).1 = srv ∧
    (handle_message srv sess msg now).2.1 = sess ∧
    ((handle_message srv sess msg now).2.2).isErrorReply = true := by
  by_cases hauth : sess.authenticated = true
  · by_cases het : pyStrip (msg.getD "entry_type" "") = ""
    · simp [handle_message, ha, hauth, het, errReply, StepOutcome.isErrorReply]
    · by_cases hdc : pyStrip (msg.getD "data_content" "") = ""
      · simp [handle_message, ha, hauth, het, hdc, errReply, StepOutcome.isErrorReply]
      · have hlen : 10000 < (pyStrip (msg.getD "data_content" "")).length := by
          rcases h with h | h | h
          · exact absurd h het
          · exact absurd h hdc
          · exact h
        obtain ⟨hsrv, m, hm⟩ := save_error_of_long auto_export_enhanced_csv srv
          ((sess.dept_info.map Prod.fst).getD 0) (pyStrip (msg.getD "entry_type" ""))
          (pyStrip (msg.getD "data_content" "")) now hlen
        simp [handle_message, ha, hauth, het, hdc, save_department_data, hm, hsrv,
          errReply, StepOutcome.isErrorReply]
  · have hauth2 : sess.authenticated = false := by
      revert hauth
      cases sess.authenticated <;> simp
    simp [handle_message, ha, hauth2, errReply, StepOutcome.isErrorReply]

/-- C2 witness: an unauthenticated `submit_data` with blank fields is
rejected and inserts nothing. -/
theorem submit_validation_spec_witness :
    (handle_message initialServer ⟨false, none⟩ [("action", "submit_data")] 0).1 =
      initialServer ∧
    (handle_message initialServer ⟨false, none⟩ [("action", "submit_data")] 0).2.1 =
      ⟨false, none⟩ ∧
    ((handle_message initialServer ⟨false, none⟩
      [("action", "submit_data")] 0).2.2).isErrorReply = true :=
  submit_validation_spec initialServer ⟨false, none⟩ [("action", "submit_data")] 0
    rfl (Or.inl (by decide))

/-- C2 counterexample: raw content of 10,001 characters whose final
character is a space is longer than 10,000 characters, yet the handler
strips it to 10,000 characters before the length check, so the submit is
accepted and an entry is inserted. -/
theorem submit_length_check_counterexample :
    10000 < longContent.length ∧
    ((handle_message initialServer sessionCS msgLong 0).2.2).statusOf =
      some "success" ∧
    ((handle_message initialServer sessionCS msgLong 0).2.2).entryIdOf = some 1 ∧
    (handle_message initialServer sessionCS msgLong 0).1.store.entries.length = 1 := by
  have hsr : pyStrip "Student Records" = "Student Records" := by decide
  have hgd : msgLong.getD "data_content" "" = longContent := rfl
  have hge : msgLong.getD "entry_type" "" = "Student Records" := rfl
  have hfind : initialServer.store.departments.find? (fun d => d.dept_id == 1) =
      some deptCS := by decide
  have hmain := handle_submit_ok initialServer sessionCS msgLong 0 1
    "Computer Science" deptCS rfl rfl rfl (by decide)
    (by rw [hge, hsr]; decide)
    (by rw [hgd, pyStrip_longContent]; exact stripped_ne_empty)
    (by rw [hge, hsr, hsr]; decide)
    (by rw [hgd, pyStrip_longContent, pyStrip_stripped]; exact stripped_ne_empty)
    (by rw [hgd, pyStrip_longContent, stripped_length]; decide)
    hfind
  refine ⟨by rw [longContent_length]; decide, ?_, ?_, ?_⟩
  · rw [hmain.1]; rfl
  · rw [hmain.1]; rfl
  · rw [hmain.2]; rfl

/-- C3: `get_recent_entries st limit` returns at most `limit` rows,
ordered by creation time descending, and every row's preview is the first
100 characters of a stored entry's content. -/
theorem get_recent_entries_spec (st : Store) (limit : Nat) :
    (get_recent_entries st limit).length ≤ limit ∧
    List.Sorted recentGE (get_recent_entries st limit) ∧
    (get_recent_entries st limit).Forall (fun r => ∃ e, e ∈ st.entries ∧
      r.content_preview = pyTake 100 e.data_content ∧
      r.created_at = e.created_at ∧ r.entry_type = e.entry_type) :=
  ⟨get_recent_length_le st limit, get_recent_sorted st limit,
   List.forall_iff_forall_mem.mpr (get_recent_mem st limit)⟩

/-- C3 witness: the property instantiated on a two-entry store with
limit 1. -/
theorem get_recent_entries_spec_witness :
    (get_recent_entries storeTwo 1).length ≤ 1 ∧
    List.Sorted recentGE (get_recent_entries storeTwo 1) ∧
    (get_recent_entries storeTwo 1).Forall (fun r => ∃ e, e ∈ storeTwo.entries ∧
      r.content_preview = pyTake 100 e.data_content ∧
      r.created_at = e.created_at ∧ r.entry_type = e.entry_type) :=
  get_recent_entries_spec storeTwo 1

/-- C4 (amended): each read is decoded standalone with no carry-over
buffer; any chunk that does not parse as a complete JSON value — whether
malformed or a partial prefix — is answered immediately with the
`Invalid JSON format` error reply, leaving server and session unchanged
(the connection stays open). -/
theorem decode_per_read_spec (srv : ServerState) (sess : Session)
    (data : String) (now : Nat) (h : parseRequest data = none) :
    handle_data srv sess data now =
      (srv, sess, .reply (errReply "Invalid JSON format")) := by
  unfold handle_data
  rw [h]

/-- C4 witness: a malformed chunk gets the JSON error reply with state
unchanged. -/
theorem decode_per_read_spec_witness :
    parseRequest "surely not json" = none ∧
    handle_data initialServer ⟨false, none⟩ "surely not json" 0 =
      (initialServer, ⟨false, none⟩, .reply (errReply "Invalid JSON format")) :=
  ⟨by decide,
   decode_per_read_spec initialServer ⟨false, none⟩ "surely not json" 0 (by decide)⟩

/-- C4 counterexample: a request split across two reads.  The first chunk
is a partial-but-growing buffer — its concatenation with the second chunk
parses — yet the server answers the first chunk with an error reply
instead of accumulating, because each read is parsed standalone. -/
theorem decode_partial_buffer_counterexample :
    parseRequest chunk1 = none ∧
    parseRequest (chunk1 ++ chunk2) = some [("action", "get_stats")] ∧
    ((handle_data initialServer ⟨false, none⟩ chunk1 0).2.2).isErrorReply = true ∧
    (handle_data initialServer ⟨false, none⟩ chunk1 0).1 = initialServer :=
  ⟨by decide, by decide, by decide, by decide⟩

/-- C5: every call to the auto-export closes its database connection
before the recent-activity query, so the query raises, the exception is
caught, and the call returns `None` with only the partially written
timestamp-named file on disk — the fixed latest file is never written and
no success filename is ever returned. -/
theorem auto_export_always_fails (st : Store) (now : Nat) :
    (auto_export_enhanced_csv st now).result = none ∧
    (auto_export_enhanced_csv st now).filesWritten = [timestampName now] ∧
    "latest_college_data_export.csv" ∉ (auto_export_enhanced_csv st now).filesWritten := by
  refine ⟨rfl, rfl, ?_⟩
  intro hmem
  rw [show (auto_export_enhanced_csv st now).filesWritten =
    [timestampName now] from rfl] at hmem
  have heq : "latest_college_data_export.csv" = timestampName now :=
    List.mem_singleton.mp hmem
  have h2 : ("latest_college_data_export.csv").data.head? =
      (timestampName now).data.head? := by rw [heq]
  rw [show timestampName now =
    "college_data_export_" ++ toString now ++ ".csv" from rfl,
    String.data_append, String.data_append] at h2
  simp [String.data] at h2

/-- C6: for valid input and an existing department, the submit succeeds
with the fresh entry id and the department's name and inserts exactly one
entry, no matter what the triggered CSV export routine does or returns —
the response is independent of the export outcome. -/
theorem submit_independent_of_export (f : Store → Nat → ExportOutcome)
    (srv : ServerState) (did : Nat) (et dc : String) (now : Nat)
    (dept : Department)
    (hdid : ¬ did = 0) (het : ¬ pyStrip et = "") (hdc : ¬ pyStrip dc = "")
    (hlen : ¬ 10000 < dc.length)
    (hfind : srv.store.departments.find? (fun d => d.dept_id == did) = some dept) :
    (save_department_data_with f srv did et dc now).2 =
      .ok (srv.store.nextEntryId, dept.dept_name) ∧
    (save_department_data_with f srv did et dc now).1.store.entries =
      srv.store.entries ++
        [⟨srv.store.nextEntryId, did, pyStrip et, pyStrip dc, now⟩] := by
  simp [save_department_data_with, hdid, het, hdc, hlen, hfind]

/-- C6 witness: instantiated with the real (always failing) auto-export:
the submit still succeeds. -/
theorem submit_independent_of_export_witness :
    (save_department_data_with auto_export_enhanced_csv initialServer 1
      "Student Records" "Annual report" 5).2 =
      .ok (initialServer.store.nextEntryId, deptCS.dept_name) ∧
    (save_department_data_with auto_export_enhanced_csv initialServer 1
      "Student Records" "Annual report" 5).1.store.entries =
      initialServer.store.entries ++
        [⟨initialServer.store.nextEntryId, 1, pyStrip "Student Records",
          pyStrip "Annual report", 5⟩] :=
  submit_independent_of_export auto_export_enhanced_csv initialServer 1
    "Student Records" "Annual report" 5 deptCS (by decide) (by decide) (by decide)
    (by decide) (by decide)

/-- C7: a `login` while already Authenticated, or any authenticated-only
action (`submit_data`, `get_recent`, `export_csv`, `get_stats`) while
Unauthenticated, is answered with exactly the
`Invalid action or authentication required` error and changes neither the
server state (entries included) nor the session. -/
theorem unauthorized_action_rejected (srv : ServerState) (sess : Session)
    (msg : Message) (now : Nat)
    (h : (msg.lookup "action" = some "login" ∧ sess.authenticated = true) ∨
         ((msg.lookup "action" = some "submit_data" ∨
           msg.lookup "action" = some "get_recent" ∨
           msg.lookup "action" = some "export_csv" ∨
           msg.lookup "action" = some "get_stats") ∧
          sess.authenticated = false)) :
    handle_message srv sess msg now =
      (srv, sess, .reply (errReply "Invalid action or authentication required")) := by
  rcases h with ⟨ha, hauth⟩ | ⟨ha, hauth⟩
  · simp [handle_message, ha, hauth]
  · rcases ha with ha | ha | ha | ha <;> simp [handle_message, ha, hauth]

/-- C7 witness: a second `login` on an authenticated session is rejected
with state unchanged. -/
theorem unauthorized_action_rejected_witness :
    handle_message initialServer sessionCS [("action", "login")] 0 =
      (initialServer, sessionCS,
       .reply (errReply "Invalid action or authentication required")) :=
  unauthorized_action_rejected initialServer sessionCS [("action", "login")] 0
    (Or.inl ⟨rfl, rfl⟩)

/-- C8: for a non-empty store, the per-category counts of the export's
category summary sum to the number of entries and the per-category
percentages `count / N * 100` sum to exactly 100. -/
theorem category_breakdown_sums (st : Store) (h : 0 < st.entries.length) :
    ((type_stats st).map (fun p => p.2)).sum = st.entries.length ∧
    ((type_stats st).map (fun p => percentage p.2 st.entries.length)).sum = 100 := by
  have h1 := type_stats_counts_sum st
  refine ⟨h1, ?_⟩
  simp only [percentage, if_pos h]
  rw [sum_map_rat, h1]
  have hN : (st.entries.length : ℚ) ≠ 0 :=
    Nat.cast_ne_zero.mpr (Nat.pos_iff_ne_zero.mp h)
  field_simp

/-- C8 witness: the sums on a concrete two-entry store. -/
theorem category_breakdown_sums_witness :
    ((type_stats storeTwo).map (fun p => p.2)).sum = storeTwo.entries.length ∧
    ((type_stats storeTwo).map (fun p =>
      percentage p.2 storeTwo.entries.length)).sum = 100 :=
  category_breakdown_sums storeTwo (by decide)

/-- C9: no operation ever increments `stats['exports']`, so it is 0 in
every reachable server state and every successful `get_stats` reply
reports the counters with `exports = 0`. -/
theorem exports_counter_never_incremented (s : ServerState) (sess : Session)
    (now : Nat) (h : Reachable s) (hauth : sess.authenticated = true) :
    s.stats.exports = 0 ∧
    (handle_message s sess [("action", "get_stats")] now).2.2 =
      .reply { status := "success", stats := some s.stats } := by
  constructor
  · induction h with
    | init => rfl
    | connect _ ih => simpa [client_connect] using ih
    | step sess2 data2 now2 _ ih => rw [stats_handle_data]; exact ih
  · simp [handle_message, List.lookup, hauth]

/-- C9 witness: after accepting one connection, `exports` is still 0 and
`get_stats` reports the live counters. -/
theorem exports_counter_never_incremented_witness :
    (client_connect initialServer).stats.exports = 0 ∧
    (handle_message (client_connect initialServer) sessionCS
      [("action", "get_stats")] 0).2.2 =
      .reply { status := "success", stats := some (client_connect initialServer).stats } :=
  exports_counter_never_incremented (client_connect initialServer) sessionCS 0
    (Reachable.connect Reachable.init) rfl

/-- C10: an authenticated `get_recent` request is answered from
`get_recent_entries` with the fixed limit 10, two `get_recent` requests
differing in any other field get identical responses, and the result
never exceeds 10 rows. -/
theorem get_recent_fixed_limit (srv : ServerState) (sess : Session)
    (msg1 msg2 : Message) (now : Nat)
    (hauth : sess.authenticated = true)
    (h1 : msg1.lookup "action" = some "get_recent")
    (h2 : msg2.lookup "action" = some "get_recent") :
    handle_message srv sess msg1 now =
      (srv, sess,
       .reply { status := "success", data := some (get_recent_entries srv.store 10) }) ∧
    handle_message srv sess msg2 now = handle_message srv sess msg1 now ∧
    (get_recent_entries srv.store 10).length ≤ 10 := by
  refine ⟨by simp [handle_message, h1, hauth], ?_, get_recent_length_le srv.store 10⟩
  simp [handle_message, h1, h2, hauth]

/-- C10 witness: a client-supplied `limit` field is ignored. -/
theorem get_recent_fixed_limit_witness :
    handle_message initialServer sessionCS
        [("action", "get_recent"), ("limit", "500")] 0 =
      (initialServer, sessionCS,
       .reply { status := "success",
                data := some (get_recent_entries initialServer.store 10) }) ∧
    handle_message initialServer sessionCS [("action", "get_recent")] 0 =
      handle_message initialServer sessionCS
        [("action", "get_recent"), ("limit", "500")] 0 ∧
    (get_recent_entries initialServer.store 10).length ≤ 10 :=
  get_recent_fixed_limit initialServer sessionCS
    [("action", "get_recent"), ("limit", "500")] [("action", "get_recent")] 0
    rfl rfl rfl

end CollegePortal
